import Mathlib

/-!
Shallow embedding of the core of bling_dashboard_streamlit.py (Dashtsbazar):
the OAuth token lifecycle (post_with_backoff, exchange_code_for_tokens,
refresh_access_token), the Streamlit session-state code-dedup logic
(auto-capture block and manual exchange button), and the paginated order
fetcher with record normalization (fetch_orders).

Network I/O is modelled by response oracles: a function from the index of the
POST (or the 1-based page number of the GET) to the HTTP response the server
would give.  time.sleep is modelled by recording the requested durations.
-/

namespace Dashtsbazar

/-- JSON values as produced by r.json() in the Python source. -/
inductive J where
  | null : J
  | s : String → J
  | i : Int → J
  | obj : List (String × J) → J
  | arr : List J → J

/-- Python helper g(d, key, default) of fetch_orders (lines 234-235):
d.get(key, default) if isinstance(d, dict) else default. -/
def g (d : J) (key : String) (dflt : J) : J :=
  match d with
  | J.obj fields => (fields.lookup key).getD dflt
  | _ => dflt

/-- Python helper gg(d, k1, k2, default) of fetch_orders (lines 236-237):
g(g(d, k1, empty-dict), k2, default). -/
def gg (d : J) (k1 k2 : String) (dflt : J) : J :=
  g (g d k1 (J.obj [])) k2 dflt

/-- Response of one POST to the token endpoint: HTTP status, the parsed JSON
object restricted to its string-valued fields (access_token, refresh_token),
and the raw response text used in error messages.  A JSON null field value is
modelled as an absent key, matching Python dict.get returning None in both
cases. -/
structure TokenResp where
  status : Nat
  body : List (String × String)
  text : String
deriving DecidableEq

/-- Loop of post_with_backoff (lines 41-49):
for i in range(tries): r = POST; if r.status_code == 429 and i < tries - 1:
time.sleep(wait * (i + 1)); continue; return r.
The last argument left = tries - i is the number of remaining iterations
(structural recursion); responses i is the response to the (i+1)-th POST.
Returns the final response, the total number of POSTs made, and the
chronological list of sleep durations. -/
def postLoop (responses : Nat → TokenResp) (tries wait : Nat) : Nat → TokenResp × Nat × List Nat
  | 0 => (responses 0, 0, [])
  | left + 1 =>
    let i := tries - (left + 1)
    let r := responses i
    if r.status = 429 ∧ 0 < left then
      let rest := postLoop responses tries wait left
      (rest.1, rest.2.1, wait * (i + 1) :: rest.2.2)
    else (r, i + 1, [])

/-- post_with_backoff (lines 41-49).  Both call sites use the default
tries=3, wait=3, kept explicit here. -/
def post_with_backoff (responses : Nat → TokenResp) (tries wait : Nat) :
    TokenResp × Nat × List Nat :=
  postLoop responses tries wait tries

/-- Typed counterpart of the RuntimeErrors raised by exchange_code_for_tokens
(lines 57-60): the 429 message, and the non-200 message carrying status and
response text. -/
inductive ExchangeErr where
  | rateLimited : ExchangeErr
  | authExchange : Nat → String → ExchangeErr
deriving DecidableEq

/-- exchange_code_for_tokens (lines 51-61).  The POSTed form data (grant_type,
code, redirect_uri) is absorbed into the response oracle; the second component
is the number of POSTs made to the token endpoint by this call. -/
def exchange_code_for_tokens (responses : Nat → TokenResp) :
    Except ExchangeErr (List (String × String)) × Nat :=
  let pr := post_with_backoff responses 3 3
  let r := pr.1
  ( if r.status = 429 then Except.error ExchangeErr.rateLimited
    else if r.status ≠ 200 then Except.error (ExchangeErr.authExchange r.status r.text)
    else Except.ok r.body,
    pr.2.1 )

/-- Typed counterpart of the RuntimeErrors raised by refresh_access_token
(lines 69-72). -/
inductive RefreshErr where
  | rateLimited : RefreshErr
  | refreshFailed : Nat → String → RefreshErr
deriving DecidableEq

/-- refresh_access_token (lines 63-74): returns
(j.get("access_token", ""), j.get("refresh_token")) on 200, raises otherwise.
Also returns the number of POSTs made and the chronological sleep durations
of the underlying post_with_backoff call. -/
def refresh_access_token (responses : Nat → TokenResp) :
    Except RefreshErr (String × Option String) × Nat × List Nat :=
  let pr := post_with_backoff responses 3 3
  let r := pr.1
  ( if r.status = 429 then Except.error RefreshErr.rateLimited
    else if r.status ≠ 200 then Except.error (RefreshErr.refreshFailed r.status r.text)
    else Except.ok ((r.body.lookup "access_token").getD "", r.body.lookup "refresh_token"),
    pr.2 )

/-- Streamlit session state of the dashboard (lines 28-30): ts_refresh,
ts_access and the last exchanged code marker.  none models Python None. -/
structure SessionState where
  ts_refresh : Option String
  ts_access : Option String
  last_code_used : Option String
deriving DecidableEq

/-- Result of running one of the two exchange blocks: the new session state
and the number of POSTs made to the token endpoint during the block. -/
structure StepResult where
  state : SessionState
  posts : Nat
deriving DecidableEq

/-- Auto-capture exchange block (lines 97-114): if a (code, state) pair was
captured and state == "auth-ts" and code and code != last_code_used, set
last_code_used to code, then exchange; on success store refresh/access tokens,
on exception only show an error (session state keeps the updated marker). -/
def autoCaptureStep (s : SessionState) (captured : Option (String × String))
    (responses : Nat → TokenResp) : StepResult :=
  match captured with
  | none => ⟨s, 0⟩
  | some (code, state) =>
    if state = "auth-ts" ∧ code ≠ "" ∧ some code ≠ s.last_code_used then
      match exchange_code_for_tokens responses with
      | (Except.ok tokens, n) =>
          ⟨⟨tokens.lookup "refresh_token", tokens.lookup "access_token", some code⟩, n⟩
      | (Except.error _, n) =>
          ⟨⟨s.ts_refresh, s.ts_access, some code⟩, n⟩
    else ⟨s, 0⟩

/-- Manual exchange button after code_value extraction (lines 165-181):
if code_value is falsy nothing happens; if it equals last_code_used a warning
is shown and no exchange is made; otherwise the marker is set and the exchange
attempted, storing tokens on success and only showing an error on failure.
code_value = none models Python code_value being None. -/
def manualExchange (s : SessionState) (code_value : Option String)
    (responses : Nat → TokenResp) : StepResult :=
  match code_value with
  | none => ⟨s, 0⟩
  | some cv =>
    if cv = "" then ⟨s, 0⟩
    else if some cv = s.last_code_used then ⟨s, 0⟩
    else
      match exchange_code_for_tokens responses with
      | (Except.ok tokens, n) =>
          ⟨⟨tokens.lookup "refresh_token", tokens.lookup "access_token", some cv⟩, n⟩
      | (Except.error _, n) =>
          ⟨⟨s.ts_refresh, s.ts_access, some cv⟩, n⟩

/-- Python truthiness of an optional string: None and "" are falsy. -/
def pyTruthy : Option String → Bool
  | none => false
  | some str => !str.isEmpty

/-- Module top-level refresh update after fetch (lines 263-265):
if new_r: st.session_state["ts_refresh"] = new_r. -/
def updateStoredRefresh (stored newR : Option String) : Option String :=
  if pyTruthy newR then newR else stored

/-- The fixed page size PAGE_LIMIT = 100 (line 23). -/
def PAGE_LIMIT : Nat := 100

/-- Response of one GET of the orders listing endpoint: HTTP status, parsed
JSON body and raw response text. -/
structure OrdersResp where
  status : Nat
  body : J
  text : String

/-- Typed counterpart of the RuntimeError raised mid-pagination (line 223),
carrying the HTTP status, the 1-based page number and the response text. -/
inductive PageErr where
  | pageFetch : Nat → Nat → String → PageErr
deriving DecidableEq

/-- Rows extraction (line 225): rows = data if isinstance(data, list) else
data.get("data") or data.get("itens") or [].  A truthy value under these keys
is, per the API contract, an array; a truthy non-array there is out of model. -/
def rowsOf (data : J) : List J :=
  match data with
  | J.arr xs => xs
  | J.obj fields =>
    match fields.lookup "data" with
    | some (J.arr (x :: xs)) => x :: xs
    | _ =>
      match fields.lookup "itens" with
      | some (J.arr (x :: xs)) => x :: xs
      | _ => []
  | _ => []

/-- Pagination loop of fetch_orders (lines 219-231), fuel-indexed: the result
none means the while-True loop has not terminated within fuel iterations;
pages is the orders endpoint (1-based page number to response), pl the page
size, pagina the current page and acc the all_rows accumulator. -/
def fetchLoop (pages : Nat → OrdersResp) (pl : Nat) :
    Nat → Nat → List J → Option (Except PageErr (List J))
  | 0, _, _ => none
  | fuel + 1, pagina, acc =>
    let r := pages pagina
    if r.status ≠ 200 then some (Except.error (PageErr.pageFetch r.status pagina r.text))
    else
      let rows := rowsOf r.body
      if rows.isEmpty then some (Except.ok acc)
      else if rows.length < pl then some (Except.ok (acc ++ rows))
      else fetchLoop pages pl fuel (pagina + 1) (acc ++ rows)

/-- Decimal digit test. -/
def isDigitChar (c : Char) : Bool := decide ('0' ≤ c) && decide (c ≤ '9')

/-- Value of a digit string read most significant first. -/
def digitsVal (cs : List Char) : Nat :=
  List.foldl (fun acc c => acc * 10 + (c.toNat - 48)) 0 cs

/-- Splitting a character list on a separator, keeping empty segments. -/
def splitOnChar (sep : Char) : List Char → List (List Char)
  | [] => [[]]
  | c :: cs =>
    match splitOnChar sep cs with
    | [] => if c = sep then [[], []] else [[c]]
    | r :: rs => if c = sep then [] :: r :: rs else (c :: r) :: rs

/-- Digit-only character list to Nat, none when empty or holding a
non-digit. -/
def natOfDigits (cs : List Char) : Option Nat :=
  if cs ≠ [] ∧ cs.all isDigitChar then some (digitsVal cs) else none

/-- Unsigned decimal literal: digits with an optional fractional part. -/
def parseSignless (cs : List Char) : Option ℚ :=
  match splitOnChar '.' cs with
  | [ip] =>
    if ip ≠ [] ∧ ip.all isDigitChar then some (digitsVal ip : ℚ) else none
  | [ip, fp] =>
    if (ip ≠ [] ∨ fp ≠ []) ∧ ip.all isDigitChar ∧ fp.all isDigitChar then
      some ((digitsVal ip : ℚ) + (digitsVal fp : ℚ) / (10 : ℚ) ^ fp.length)
    else none
  | _ => none

/-- Decimal-string parsing modelling pd.to_numeric(errors="coerce") on the
string values this API produces: optional sign, digits, optional fractional
part; anything else coerces to none (NaN). -/
def parseDecimal (str : String) : Option ℚ :=
  match str.toList with
  | '-' :: rest => (parseSignless rest).map (fun q => -q)
  | '+' :: rest => parseSignless rest
  | cs => parseSignless cs

/-- ISO-date parsing modelling pd.to_datetime(errors="coerce") on the API's
YYYY-MM-DD date strings; unparseable values coerce to none (NaT). -/
def parseISODate (str : String) : Option (Nat × Nat × Nat) :=
  match splitOnChar '-' str.toList with
  | [y, m, d] =>
    match natOfDigits y, natOfDigits m, natOfDigits d with
    | some yn, some mn, some dn =>
      if 1 ≤ mn ∧ mn ≤ 12 ∧ 1 ≤ dn ∧ dn ≤ 31 then some (yn, mn, dn) else none
    | _, _, _ => none
  | _ => none

/-- Column coercion df["total"] = pd.to_numeric(df["total"], errors="coerce")
(line 252), element-wise: JSON numbers pass through, strings are parsed,
everything else (null included) becomes none (NaN). -/
def coerceNum : J → Option ℚ
  | J.i n => some (n : ℚ)
  | J.s str => parseDecimal str
  | _ => none

/-- Column coercion df["data"] = pd.to_datetime(df["data"], errors="coerce")
(line 251), element-wise on the API's date strings; null and non-strings
become none (NaT). -/
def coerceDate : J → Option (Nat × Nat × Nat)
  | J.s str => parseISODate str
  | _ => none

/-- One entry of recs (lines 240-248), before the pandas column coercions. -/
structure RawOrderRecord where
  id : J
  data : J
  numero : J
  numeroLoja : J
  total : J
  loja_id : J

/-- One row of the DataFrame returned by fetch_orders, after the data and
total column coercions (lines 249-252). -/
structure OrderRecord where
  id : J
  data : Option (Nat × Nat × Nat)
  numero : J
  numeroLoja : J
  total : Option ℚ
  loja_id : J

/-- Normalization of one raw record x into a recs entry (lines 241-248). -/
def normalizeRaw (x : J) : RawOrderRecord :=
  ⟨g x "id" J.null, g x "data" J.null, g x "numero" J.null,
   g x "numeroLoja" J.null, g x "total" J.null, gg x "loja" "id" J.null⟩

/-- The two column coercions applied to one recs entry (lines 250-252). -/
def coerceRecord (r : RawOrderRecord) : OrderRecord :=
  ⟨r.id, coerceDate r.data, r.numero, r.numeroLoja, coerceNum r.total, r.loja_id⟩

/-- The full normalization applied by fetch_orders to all_rows
(lines 239-252). -/
def normalizeAll (rows : List J) : List OrderRecord :=
  rows.map (fun x => coerceRecord (normalizeRaw x))

/-- Errors propagating out of fetch_orders: the refresh_access_token ones and
the mid-pagination one. -/
inductive FetchErr where
  | refresh : RefreshErr → FetchErr
  | page : PageErr → FetchErr
deriving DecidableEq

/-- fetch_orders (lines 207-253): refresh the access token, paginate from page
1, normalize, and return the records together with maybe_new_refresh.  The
token endpoint is modelled by refreshResponses, the orders endpoint by pages;
fuel bounds the while-True loop, none meaning it has not terminated within
fuel pages. -/
def fetch_orders (refreshResponses : Nat → TokenResp) (pages : Nat → OrdersResp)
    (fuel : Nat) : Option (Except FetchErr (List OrderRecord × Option String)) :=
  match (refresh_access_token refreshResponses).1 with
  | Except.error e => some (Except.error (FetchErr.refresh e))
  | Except.ok ar =>
    match fetchLoop pages PAGE_LIMIT fuel 1 [] with
    | none => none
    | some (Except.error e) => some (Except.error (FetchErr.page e))
    | some (Except.ok rows) => some (Except.ok (normalizeAll rows, ar.2))

/-- Concatenation of the rows of pages start, start+1, ..., start+n-1. -/
def pagesConcat (pages : Nat → OrdersResp) : Nat → Nat → List J
  | _, 0 => []
  | start, n + 1 => rowsOf (pages start).body ++ pagesConcat pages (start + 1) n

/-- Per-page row counts of pages start, start+1, ..., start+n-1. -/
def pageLens (pages : Nat → OrdersResp) : Nat → Nat → List Nat
  | _, 0 => []
  | start, n + 1 => (rowsOf (pages start).body).length :: pageLens pages (start + 1) n

/-! Concrete response oracles used by witnesses and counterexamples. -/

/-- Token endpoint that always answers 429. -/
def always429 : Nat → TokenResp := fun _ => ⟨429, [], "Too Many Requests"⟩

/-- Token endpoint that always answers 500. -/
def always500 : Nat → TokenResp := fun _ => ⟨500, [], "Internal Server Error"⟩

/-- Token endpoint answering 200 with both tokens. -/
def okTokens : Nat → TokenResp :=
  fun _ => ⟨200, [("access_token", "ACC"), ("refresh_token", "NEWREF")], "ok"⟩

/-- Token endpoint answering 200 without a refresh_token. -/
def okNoRefresh : Nat → TokenResp := fun _ => ⟨200, [("access_token", "ACC")], "ok"⟩

/-- Token endpoint answering 200 with an empty-string refresh_token. -/
def okEmptyRefresh : Nat → TokenResp :=
  fun _ => ⟨200, [("access_token", "ACC"), ("refresh_token", "")], "ok"⟩

/-- Orders endpoint whose every page is a one-row array (a terminal page). -/
def onePage : Nat → OrdersResp := fun _ => ⟨200, J.arr [J.obj [("id", J.i 5)]], "ok"⟩

/-- Orders endpoint whose every page is a 500 error. -/
def badPages : Nat → OrdersResp := fun _ => ⟨500, J.null, "boom"⟩

/-- The raw record of the spec's first normalization example. -/
def exampleRec1 : J :=
  J.obj [("id", J.i 1), ("data", J.s "2024-01-05"),
    ("total", J.s "12.50"), ("loja", J.obj [("id", J.i 7)])]

/-- The raw record of the spec's second normalization example: an unparseable
total. -/
def exampleRec2 : J :=
  J.obj [("id", J.i 1), ("data", J.s "2024-01-05"),
    ("total", J.s "not-a-number"), ("loja", J.obj [("id", J.i 7)])]

/-! Helper lemmas. -/

/-- Unfolding of the auto-capture block when the guard passes. -/
theorem autoCaptureStep_attempt (s : SessionState) (code : String)
    (responses : Nat → TokenResp)
    (hcode : code ≠ "") (hnew : some code ≠ s.last_code_used) :
    autoCaptureStep s (some (code, "auth-ts")) responses =
      match exchange_code_for_tokens responses with
      | (Except.ok tokens, n) =>
          ⟨⟨tokens.lookup "refresh_token", tokens.lookup "access_token", some code⟩, n⟩
      | (Except.error _, n) => ⟨⟨s.ts_refresh, s.ts_access, some code⟩, n⟩ := by
  simp only [autoCaptureStep]
  rw [if_pos ⟨trivial, hcode, hnew⟩]

/-- Unfolding of the manual exchange block when the guard passes. -/
theorem manualExchange_attempt (s : SessionState) (code : String)
    (responses : Nat → TokenResp)
    (hcode : code ≠ "") (hnew : some code ≠ s.last_code_used) :
    manualExchange s (some code) responses =
      match exchange_code_for_tokens responses with
      | (Except.ok tokens, n) =>
          ⟨⟨tokens.lookup "refresh_token", tokens.lookup "access_token", some code⟩, n⟩
      | (Except.error _, n) => ⟨⟨s.ts_refresh, s.ts_access, some code⟩, n⟩ := by
  simp only [manualExchange]
  rw [if_neg hcode, if_neg hnew]

/-- After an attempted exchange the session marker holds the submitted code,
whatever the exchange outcome. -/
theorem attempt_sets_marker (s : SessionState) (code : String)
    (responses : Nat → TokenResp)
    (hcode : code ≠ "") (hnew : some code ≠ s.last_code_used) :
    (autoCaptureStep s (some (code, "auth-ts")) responses).state.last_code_used
      = some code ∧
    (manualExchange s (some code) responses).state.last_code_used = some code := by
  rw [autoCaptureStep_attempt s code responses hcode hnew,
    manualExchange_attempt s code responses hcode hnew]
  cases h : exchange_code_for_tokens responses with
  | mk res n => cases res <;> exact ⟨rfl, rfl⟩

/-- Submitting the code recorded in the marker makes no POST and leaves the
session unchanged, in both paths. -/
theorem marker_blocks_resubmission (s : SessionState) (c state2 : String)
    (responses : Nat → TokenResp) (h : s.last_code_used = some c) :
    autoCaptureStep s (some (c, state2)) responses = ⟨s, 0⟩ ∧
    manualExchange s (some c) responses = ⟨s, 0⟩ := by
  constructor
  · simp [autoCaptureStep, h]
  · by_cases hc : c = "" <;> simp [manualExchange, h, hc]

/-- An immediate 200 from the token endpoint makes refresh_access_token
succeed in one POST, returning the body's token fields. -/
theorem refresh_ok (responses : Nat → TokenResp)
    (h200 : (responses 0).status = 200) :
    refresh_access_token responses =
      (Except.ok (((responses 0).body.lookup "access_token").getD "",
        (responses 0).body.lookup "refresh_token"), 1, []) := by
  simp [refresh_access_token, post_with_backoff, postLoop, h200]

/-- Normalization keeps every row: one output record per input row. -/
theorem normalizeAll_length (rows : List J) :
    (normalizeAll rows).length = rows.length := by
  simp [normalizeAll]

/-- pagesConcat with one more page appends that page's rows at the end. -/
theorem pagesConcat_snoc (pages : Nat → OrdersResp) :
    ∀ (n start : Nat), pagesConcat pages start (n + 1)
      = pagesConcat pages start n ++ rowsOf (pages (start + n)).body := by
  intro n
  induction n with
  | zero => intro start; simp [pagesConcat]
  | succ m ih =>
    intro start
    have h1 : pagesConcat pages start (m + 1 + 1)
        = rowsOf (pages start).body ++ pagesConcat pages (start + 1) (m + 1) := rfl
    have h2 : pagesConcat pages start (m + 1)
        = rowsOf (pages start).body ++ pagesConcat pages (start + 1) m := rfl
    rw [h1, ih (start + 1), h2, List.append_assoc]
    have h3 : start + 1 + m = start + (m + 1) := by omega
    rw [h3]

/-- The length of the concatenated pages is the sum of the per-page counts. -/
theorem pagesConcat_length (pages : Nat → OrdersResp) :
    ∀ (n start : Nat), (pagesConcat pages start n).length
      = (pageLens pages start n).sum := by
  intro n
  induction n with
  | zero => intro start; rfl
  | succ m ih =>
    intro start
    have h1 : pagesConcat pages start (m + 1)
        = rowsOf (pages start).body ++ pagesConcat pages (start + 1) m := rfl
    have h2 : pageLens pages start (m + 1)
        = (rowsOf (pages start).body).length :: pageLens pages (start + 1) m := rfl
    rw [h1, h2, List.length_append, List.sum_cons, ih (start + 1)]

/-- Advancing the pagination loop across n consecutive status-200 pages, each
holding at least pl rows: each page costs one fuel unit and appends its rows
to the accumulator. -/
theorem fetchLoop_advance (pages : Nat → OrdersResp) (pl : Nat) (hpl : 0 < pl) :
    ∀ (n start fuel : Nat) (acc : List J),
      (∀ p, start ≤ p → p < start + n →
        (pages p).status = 200 ∧ pl ≤ (rowsOf (pages p).body).length) →
      fetchLoop pages pl (fuel + n) start acc
        = fetchLoop pages pl fuel (start + n) (acc ++ pagesConcat pages start n) := by
  intro n
  induction n with
  | zero => intro start fuel acc _; simp [pagesConcat]
  | succ m ih =>
    intro start fuel acc hfull
    have hs := hfull start (le_refl start) (by omega)
    have h200 : ¬ (pages start).status ≠ 200 := by simp [hs.1]
    have hlen : 0 < (rowsOf (pages start).body).length := lt_of_lt_of_le hpl hs.2
    have hne : (rowsOf (pages start).body).isEmpty = false := by
      cases hrows : rowsOf (pages start).body with
      | nil => rw [hrows] at hlen; simp at hlen
      | cons a l => rfl
    have hnl : ¬ (rowsOf (pages start).body).length < pl := not_lt.mpr hs.2
    have heq : fuel + (m + 1) = (fuel + m) + 1 := by omega
    rw [heq]
    simp only [fetchLoop]
    rw [if_neg h200, if_neg (by simp [hne]), if_neg hnl]
    rw [ih (start + 1) fuel (acc ++ rowsOf (pages start).body)
      (fun p h1 h2 => hfull p (by omega) (by omega))]
    have h3 : start + 1 + m = start + (m + 1) := by omega
    have h4 : pagesConcat pages start (m + 1)
        = rowsOf (pages start).body ++ pagesConcat pages (start + 1) m := rfl
    rw [h3, h4, List.append_assoc]

/-- An orders endpoint that answers every page with status 200 and exactly
PAGE_LIMIT rows. -/
def endlessPages : Nat → OrdersResp :=
  fun _ => ⟨200, J.arr (List.replicate PAGE_LIMIT (J.obj [("id", J.i 1)])), "ok"⟩

/-! Claim theorems. -/

/-- C3: for every call of refresh_access_token, an HTTP 429 response triggers
up to 3 attempts total with strictly (linearly) increasing wait between
attempts (wait = base 3 times the 1-based attempt index, here 3 then 6) before
final failure, while every other non-200 status (any status other than 429
and 200: 400, 401, 500, 503, ...) triggers exactly 1 attempt and fails
immediately without retry and without sleeping. -/
theorem refresh_retry_policy (resps429 respsOther : Nat → TokenResp)
    (h0 : (resps429 0).status = 429) (h1 : (resps429 1).status = 429)
    (h2 : (resps429 2).status = 429)
    (hn429 : (respsOther 0).status ≠ 429) (hn200 : (respsOther 0).status ≠ 200) :
    (refresh_access_token resps429).2.1 = 3 ∧
    (refresh_access_token resps429).2.2 = [3 * 1, 3 * 2] ∧
    3 * 1 < 3 * 2 ∧
    (refresh_access_token resps429).1 = Except.error RefreshErr.rateLimited ∧
    (refresh_access_token respsOther).2.1 = 1 ∧
    (refresh_access_token respsOther).2.2 = [] ∧
    (refresh_access_token respsOther).1 =
      Except.error (RefreshErr.refreshFailed (respsOther 0).status (respsOther 0).text) := by
  refine ⟨?_, ?_, by norm_num, ?_, ?_, ?_, ?_⟩ <;>
    simp [refresh_access_token, post_with_backoff, postLoop, h0, h1, h2, hn429, hn200]

/-- C3 witness: the retry policy evaluated on the always-429 and always-500
endpoints. -/
theorem refresh_retry_policy_witness :
    (always429 0).status = 429 ∧
    (always500 0).status ≠ 429 ∧ (always500 0).status ≠ 200 ∧
    (refresh_access_token always429).2.1 = 3 ∧
    (refresh_access_token always429).2.2 = [3 * 1, 3 * 2] ∧
    (refresh_access_token always500).2.1 = 1 ∧
    (refresh_access_token always500).2.2 = [] := by
  have h := refresh_retry_policy always429 always500 rfl rfl rfl (by decide) (by decide)
  exact ⟨rfl, by decide, by decide, h.1, h.2.1, h.2.2.2.2.1, h.2.2.2.2.2.1⟩

/-- C4 counterexample: the claim says at most one POST to the token endpoint
is made per exchange_code_for_tokens call regardless of the response status,
but when the endpoint answers 429 the call makes 3 POSTs. -/
theorem exchange_single_post_cex :
    (exchange_code_for_tokens always429).2 = 3 ∧
    ¬ (exchange_code_for_tokens always429).2 ≤ 1 := by
  exact ⟨rfl, by decide⟩

/-- C4 amended: exchange_code_for_tokens makes exactly one POST whenever the
first response is not a 429, regardless of its status; on 429 it retries
exactly like the refresh path (up to 3 attempts via post_with_backoff) and
then fails with the rate-limit error. -/
theorem exchange_post_count (resps resps429 : Nat → TokenResp)
    (hn : (resps 0).status ≠ 429)
    (h0 : (resps429 0).status = 429) (h1 : (resps429 1).status = 429)
    (h2 : (resps429 2).status = 429) :
    (exchange_code_for_tokens resps).2 = 1 ∧
    (exchange_code_for_tokens resps429).2 = 3 ∧
    (exchange_code_for_tokens resps429).1 = Except.error ExchangeErr.rateLimited := by
  refine ⟨?_, ?_, ?_⟩ <;>
    simp [exchange_code_for_tokens, post_with_backoff, postLoop, hn, h0, h1, h2]

/-- C4 amended witness: one POST on an immediate 200, three POSTs on 429. -/
theorem exchange_post_count_witness :
    (okTokens 0).status ≠ 429 ∧ (always429 0).status = 429 ∧
    (exchange_code_for_tokens okTokens).2 = 1 ∧
    (exchange_code_for_tokens always429).2 = 3 := by
  have h := exchange_post_count okTokens always429 (by decide) rfl rfl rfl
  exact ⟨by decide, rfl, h.1, h.2.1⟩

/-- C1 counterexample: the claim says an HTTP 200 exchange response without a
refresh_token fails with MissingRefreshTokenError and that the caller stores
no stale or null refresh token, but exchange_code_for_tokens returns the body
as a success and the auto-capture caller stores None over the previously held
refresh token. -/
theorem exchange_missing_refresh_cex :
    (okNoRefresh 0).status = 200 ∧
    (okNoRefresh 0).body.lookup "refresh_token" = none ∧
    (exchange_code_for_tokens okNoRefresh).1 = Except.ok [("access_token", "ACC")] ∧
    (autoCaptureStep ⟨some "OLDREF", none, none⟩ (some ("CODE1", "auth-ts"))
        okNoRefresh).state.ts_refresh = none :=
  ⟨rfl, rfl, rfl, rfl⟩

/-- C1 amended: when the HTTP response has status 200 but its JSON body omits
a refresh_token, exchange_code_for_tokens succeeds, returning the body
unchanged, and both the auto-capture and the manual caller store None as the
session refresh token (the previous value is overwritten with null rather
than any error being raised). -/
theorem exchange_missing_refresh_behavior (responses : Nat → TokenResp)
    (s : SessionState) (code : String)
    (h200 : (responses 0).status = 200)
    (hmiss : (responses 0).body.lookup "refresh_token" = none)
    (hcode : code ≠ "") (hnew : some code ≠ s.last_code_used) :
    (exchange_code_for_tokens responses).1 = Except.ok (responses 0).body ∧
    (autoCaptureStep s (some (code, "auth-ts")) responses).state.ts_refresh = none ∧
    (manualExchange s (some code) responses).state.ts_refresh = none := by
  have hex : exchange_code_for_tokens responses =
      (Except.ok (responses 0).body, 1) := by
    simp [exchange_code_for_tokens, post_with_backoff, postLoop, h200]
  refine ⟨by rw [hex], ?_, ?_⟩
  · simp [autoCaptureStep, if_pos, hcode, hnew, hex, hmiss]
  · simp [manualExchange, hcode, hnew, hex, hmiss]

/-- C1 amended witness: evaluated on the refresh-token-less 200 endpoint and a
session previously holding a refresh token. -/
theorem exchange_missing_refresh_behavior_witness :
    (okNoRefresh 0).status = 200 ∧
    (okNoRefresh 0).body.lookup "refresh_token" = none ∧
    (exchange_code_for_tokens okNoRefresh).1 = Except.ok (okNoRefresh 0).body ∧
    (autoCaptureStep ⟨some "OLDREF", none, some "other"⟩ (some ("CODE1", "auth-ts"))
        okNoRefresh).state.ts_refresh = none ∧
    (manualExchange ⟨some "OLDREF", none, some "other"⟩ (some "CODE1")
        okNoRefresh).state.ts_refresh = none := by
  have h := exchange_missing_refresh_behavior okNoRefresh
    ⟨some "OLDREF", none, some "other"⟩ "CODE1" rfl rfl (by decide) (by decide)
  exact ⟨rfl, rfl, h.1, h.2.1, h.2.2⟩

/-- C5 counterexample: the claim says a successful refresh returning a
non-null refresh_token always replaces the stored one, but when the returned
refresh_token is the empty string (non-null) the caller's truthiness test
keeps the old stored value. -/
theorem refresh_empty_string_cex :
    (refresh_access_token okEmptyRefresh).1 = Except.ok ("ACC", some "") ∧
    updateStoredRefresh (some "OLDREF") (some "") = some "OLDREF" ∧
    (some "OLDREF" : Option String) ≠ some "" :=
  ⟨rfl, rfl, by decide⟩

/-- C5 amended: after a successful refresh_access_token call, a null returned
refresh_token leaves the caller's stored refresh_token unchanged; a non-null,
non-empty returned value replaces it; and a non-null empty-string value is
also retained unchanged because the caller tests Python truthiness, not
non-nullness. -/
theorem refresh_update_contract (responses : Nat → TokenResp) (stored : Option String)
    (h200 : (responses 0).status = 200) :
    (refresh_access_token responses).1 =
      Except.ok (((responses 0).body.lookup "access_token").getD "",
                 (responses 0).body.lookup "refresh_token") ∧
    ((responses 0).body.lookup "refresh_token" = none →
      updateStoredRefresh stored ((responses 0).body.lookup "refresh_token") = stored) ∧
    (∀ ns : String, (responses 0).body.lookup "refresh_token" = some ns → ns ≠ "" →
      updateStoredRefresh stored ((responses 0).body.lookup "refresh_token") = some ns) ∧
    ((responses 0).body.lookup "refresh_token" = some "" →
      updateStoredRefresh stored ((responses 0).body.lookup "refresh_token") = stored) := by
  refine ⟨by simp [refresh_access_token, post_with_backoff, postLoop, h200], ?_, ?_, ?_⟩
  · intro h; rw [h]; rfl
  · intro ns h hne
    have hemp : ns.isEmpty = false := by
      rcases Bool.eq_false_or_eq_true ns.isEmpty with he | he
      · exact absurd ((String.isEmpty_iff ns).mp he) hne
      · exact he
    rw [h]
    simp [updateStoredRefresh, pyTruthy, hemp]
  · intro h; rw [h]; rfl

/-- C5 amended witness: a non-empty returned refresh_token replaces the
stored one and a missing one retains it. -/
theorem refresh_update_contract_witness :
    (okTokens 0).status = 200 ∧ (okNoRefresh 0).status = 200 ∧
    updateStoredRefresh (some "OLDREF") ((okTokens 0).body.lookup "refresh_token")
      = some "NEWREF" ∧
    updateStoredRefresh (some "OLDREF") ((okNoRefresh 0).body.lookup "refresh_token")
      = some "OLDREF" := by
  have h1 := refresh_update_contract okTokens (some "OLDREF") rfl
  have h2 := refresh_update_contract okNoRefresh (some "OLDREF") rfl
  exact ⟨rfl, rfl, h1.2.2.1 "NEWREF" rfl (by decide), h2.2.1 rfl⟩

/-- C8: within one session, submitting the code recorded as the most recently
consumed one is rejected locally in both the auto-capture and the manual
path: no POST to the token endpoint is made and the session state is
unchanged. -/
theorem duplicate_code_rejected (s : SessionState) (c state2 : String)
    (responses : Nat → TokenResp) (h : s.last_code_used = some c) :
    autoCaptureStep s (some (c, state2)) responses = ⟨s, 0⟩ ∧
    manualExchange s (some c) responses = ⟨s, 0⟩ := by
  constructor
  · simp [autoCaptureStep, h]
  · by_cases hc : c = "" <;> simp [manualExchange, h, hc]

/-- C8 witness: resubmitting the consumed code CODE1 makes zero POSTs in both
paths. -/
theorem duplicate_code_rejected_witness :
    (⟨some "R", none, some "CODE1"⟩ : SessionState).last_code_used = some "CODE1" ∧
    autoCaptureStep ⟨some "R", none, some "CODE1"⟩ (some ("CODE1", "auth-ts")) okTokens
      = ⟨⟨some "R", none, some "CODE1"⟩, 0⟩ ∧
    manualExchange ⟨some "R", none, some "CODE1"⟩ (some "CODE1") okTokens
      = ⟨⟨some "R", none, some "CODE1"⟩, 0⟩ := by
  have h := duplicate_code_rejected ⟨some "R", none, some "CODE1"⟩ "CODE1" "auth-ts"
    okTokens rfl
  exact ⟨rfl, h.1, h.2⟩

/-- C10 counterexample: the claim says that once an exchange has been
attempted with a code c, every later submission of c in the same session is
rejected locally; but after a failed exchange of c1 followed by an exchange
of a different code c2, resubmitting c1 makes a POST again, because only the
most recently consumed code is remembered. -/
theorem code_marker_cex :
    (autoCaptureStep ⟨none, none, none⟩ (some ("c1", "auth-ts")) always500).posts = 1 ∧
    (autoCaptureStep ⟨none, none, none⟩ (some ("c1", "auth-ts"))
        always500).state.last_code_used = some "c1" ∧
    (manualExchange (autoCaptureStep ⟨none, none, none⟩ (some ("c1", "auth-ts"))
          always500).state (some "c2") okTokens).state.last_code_used = some "c2" ∧
    (manualExchange (manualExchange (autoCaptureStep ⟨none, none, none⟩
          (some ("c1", "auth-ts")) always500).state (some "c2") okTokens).state
        (some "c1") okTokens).posts = 1 := by
  decide

/-- C10 amended: in both capture paths the last-used-code marker is set to the
submitted code before the exchange outcome is known, so it equals that code
after the block whether the exchange succeeded or failed; and while the
marker still holds c, resubmitting c in either path makes zero POSTs.  The
marker only remembers the most recently consumed code, so an intervening
exchange with a different code makes c exchangeable again. -/
theorem code_marker_set_before_exchange (s : SessionState) (code : String)
    (responses r2 : Nat → TokenResp)
    (hcode : code ≠ "") (hnew : some code ≠ s.last_code_used) :
    (autoCaptureStep s (some (code, "auth-ts")) responses).state.last_code_used
      = some code ∧
    (manualExchange s (some code) responses).state.last_code_used = some code ∧
    (autoCaptureStep (autoCaptureStep s (some (code, "auth-ts")) responses).state
        (some (code, "auth-ts")) r2).posts = 0 ∧
    (manualExchange (manualExchange s (some code) responses).state (some code) r2).posts
      = 0 := by
  obtain ⟨hauto, hman⟩ := attempt_sets_marker s code responses hcode hnew
  refine ⟨hauto, hman, ?_, ?_⟩
  · rw [(marker_blocks_resubmission _ code "auth-ts" r2 hauto).1]
  · rw [(marker_blocks_resubmission _ code "unused" r2 hman).2]

/-- C10 amended witness: after a failed auto exchange of CODE1 the marker
holds CODE1 and resubmissions of CODE1 make zero POSTs. -/
theorem code_marker_set_before_exchange_witness :
    ("CODE1" : String) ≠ "" ∧
    (autoCaptureStep ⟨none, none, none⟩ (some ("CODE1", "auth-ts"))
        always500).state.last_code_used = some "CODE1" ∧
    (autoCaptureStep (autoCaptureStep ⟨none, none, none⟩ (some ("CODE1", "auth-ts"))
        always500).state (some ("CODE1", "auth-ts")) okTokens).posts = 0 ∧
    (manualExchange (manualExchange ⟨none, none, none⟩ (some "CODE1") always500).state
        (some "CODE1") okTokens).posts = 0 := by
  have h := code_marker_set_before_exchange ⟨none, none, none⟩ "CODE1"
    always500 okTokens (by decide) (by decide)
  exact ⟨by decide, h.1, h.2.2.1, h.2.2.2⟩

/-- C2: when pages 1..k-1 of the date window hold at least PAGE_LIMIT rows
each and page k is the first page with zero rows or fewer than PAGE_LIMIT
rows, fetch_orders terminates exactly there with a success (empty-page
termination is not an error), returning the normalized concatenation of the
rows of pages 1..k, and the number of returned records equals the sum of the
per-page row counts of the pages fetched. -/
theorem fetch_orders_pagination (refreshResponses : Nat → TokenResp)
    (pages : Nat → OrdersResp) (k fuel : Nat)
    (hr : (refreshResponses 0).status = 200)
    (hk : 1 ≤ k) (hfuel : k ≤ fuel)
    (hfull : ∀ p, 1 ≤ p → p < k →
      (pages p).status = 200 ∧ PAGE_LIMIT ≤ (rowsOf (pages p).body).length)
    (hk200 : (pages k).status = 200)
    (hterm : (rowsOf (pages k).body).isEmpty = true ∨
      (rowsOf (pages k).body).length < PAGE_LIMIT) :
    fetch_orders refreshResponses pages fuel
      = some (Except.ok (normalizeAll (pagesConcat pages 1 k),
          (refreshResponses 0).body.lookup "refresh_token")) ∧
    (normalizeAll (pagesConcat pages 1 k)).length = (pageLens pages 1 k).sum := by
  obtain ⟨j, rfl⟩ : ∃ j, k = j + 1 := ⟨k - 1, by omega⟩
  obtain ⟨m, hm⟩ : ∃ m, fuel = (m + 1) + j := ⟨fuel - j - 1, by omega⟩
  have e1j : 1 + j = j + 1 := by omega
  have hloop : fetchLoop pages PAGE_LIMIT fuel 1 []
      = some (Except.ok (pagesConcat pages 1 (j + 1))) := by
    rw [hm, fetchLoop_advance pages PAGE_LIMIT (by norm_num [PAGE_LIMIT]) j 1 (m + 1) []
      (fun p h1 h2 => hfull p h1 (by omega)), e1j]
    simp only [fetchLoop]
    rw [if_neg (by simp [hk200])]
    have hsnoc : pagesConcat pages 1 (j + 1)
        = pagesConcat pages 1 j ++ rowsOf (pages (1 + j)).body := pagesConcat_snoc pages j 1
    cases hrows : (rowsOf (pages (j + 1)).body).isEmpty with
    | true =>
      rw [if_pos rfl]
      have hnil : rowsOf (pages (j + 1)).body = [] := List.isEmpty_iff.mp hrows
      rw [hsnoc, e1j, hnil, List.append_nil, List.nil_append]
    | false =>
      have hlt : (rowsOf (pages (j + 1)).body).length < PAGE_LIMIT := by
        rcases hterm with ht | ht
        · rw [hrows] at ht; cases ht
        · exact ht
      rw [if_neg (by simp), if_pos hlt, hsnoc, e1j, List.nil_append]
  constructor
  · simp only [fetch_orders, refresh_ok refreshResponses hr, hloop]
  · rw [normalizeAll_length, pagesConcat_length]

/-- C2 witness: a single one-row page terminates the fetch at page 1 with one
record, matching the per-page sum. -/
theorem fetch_orders_pagination_witness :
    (okTokens 0).status = 200 ∧ (onePage 1).status = 200 ∧
    (rowsOf (onePage 1).body).length < PAGE_LIMIT ∧
    fetch_orders okTokens onePage 1
      = some (Except.ok (normalizeAll (pagesConcat onePage 1 1),
          (okTokens 0).body.lookup "refresh_token")) ∧
    (normalizeAll (pagesConcat onePage 1 1)).length = (pageLens onePage 1 1).sum := by
  have h := fetch_orders_pagination okTokens onePage 1 1 rfl (le_refl 1) (le_refl 1)
    (fun p h1 h2 => absurd (lt_of_le_of_lt h1 h2) (lt_irrefl 1)) rfl
    (Or.inr (by decide))
  exact ⟨rfl, rfl, by decide, h.1, h.2⟩

/-- C6: a non-200 response on page k mid-pagination makes fetch_orders fail
with the page-fetch error carrying that status, the page number and the
response body, and the rows already accumulated from pages 1..k-1 are
discarded: the result is the bare error, never a partial record sequence. -/
theorem fetch_orders_all_or_nothing (refreshResponses : Nat → TokenResp)
    (pages : Nat → OrdersResp) (k fuel : Nat)
    (hr : (refreshResponses 0).status = 200)
    (hk : 1 ≤ k) (hfuel : k ≤ fuel)
    (hfull : ∀ p, 1 ≤ p → p < k →
      (pages p).status = 200 ∧ PAGE_LIMIT ≤ (rowsOf (pages p).body).length)
    (hbad : (pages k).status ≠ 200) :
    fetch_orders refreshResponses pages fuel
      = some (Except.error (FetchErr.page
          (PageErr.pageFetch (pages k).status k (pages k).text))) := by
  obtain ⟨j, rfl⟩ : ∃ j, k = j + 1 := ⟨k - 1, by omega⟩
  obtain ⟨m, hm⟩ : ∃ m, fuel = (m + 1) + j := ⟨fuel - j - 1, by omega⟩
  have e1j : 1 + j = j + 1 := by omega
  have hloop : fetchLoop pages PAGE_LIMIT fuel 1 []
      = some (Except.error (PageErr.pageFetch (pages (j + 1)).status (j + 1)
          (pages (j + 1)).text)) := by
    rw [hm, fetchLoop_advance pages PAGE_LIMIT (by norm_num [PAGE_LIMIT]) j 1 (m + 1) []
      (fun p h1 h2 => hfull p h1 (by omega)), e1j]
    simp only [fetchLoop]
    rw [if_pos hbad]
  simp only [fetch_orders, refresh_ok refreshResponses hr, hloop]

/-- C6 witness: a 500 on the very first page yields the typed error with
status 500, page 1 and the response body, and no records. -/
theorem fetch_orders_all_or_nothing_witness :
    (okTokens 0).status = 200 ∧ (badPages 1).status ≠ 200 ∧
    fetch_orders okTokens badPages 1
      = some (Except.error (FetchErr.page (PageErr.pageFetch 500 1 "boom"))) := by
  have h := fetch_orders_all_or_nothing okTokens badPages 1 1 rfl (le_refl 1) (le_refl 1)
    (fun p h1 h2 => absurd (lt_of_le_of_lt h1 h2) (lt_irrefl 1)) (by decide)
  exact ⟨rfl, by decide, h⟩

/-- C9: fetch_orders imposes no defensive maximum page count: against an
endpoint that keeps answering status-200 pages of exactly PAGE_LIMIT rows,
the pagination loop never terminates, for any number of iterations, and in
particular never fails with any pagination-overrun error. -/
theorem fetch_orders_no_page_cap :
    ∀ fuel, fetch_orders okTokens endlessPages fuel = none := by
  have hloop : ∀ fuel pagina acc,
      fetchLoop endlessPages PAGE_LIMIT fuel pagina acc = none := by
    intro fuel
    induction fuel with
    | zero => intro pagina acc; rfl
    | succ m ih =>
      intro pagina acc
      have hlen : (rowsOf (endlessPages pagina).body).length = PAGE_LIMIT := by
        simp [endlessPages, rowsOf]
      have hne : (rowsOf (endlessPages pagina).body).isEmpty = false := by
        cases hrows : rowsOf (endlessPages pagina).body with
        | nil => rw [hrows] at hlen; simp [PAGE_LIMIT] at hlen
        | cons a l => rfl
      simp only [fetchLoop]
      rw [if_neg (by simp [endlessPages]), if_neg (by rw [hne]; simp),
        if_neg (by rw [hlen]; exact lt_irrefl PAGE_LIMIT)]
      exact ih (pagina + 1) (acc ++ rowsOf (endlessPages pagina).body)
  intro fuel
  simp only [fetch_orders, refresh_ok okTokens rfl, hloop]

/-- C7: normalization never drops a row (one output record per input row, for
every input), the spec's concrete example maps to id 1, date 2024-01-05,
total 12.50 and store id 7 with the absent numero fields null, and the
variant with an unparseable total keeps the record with a null total. -/
theorem normalization_defensive (rows : List J) :
    (normalizeAll rows).length = rows.length ∧
    normalizeAll [exampleRec1]
      = [⟨J.i 1, some (2024, 1, 5), J.null, J.null, some (25 / 2 : ℚ), J.i 7⟩] ∧
    normalizeAll [exampleRec2]
      = [⟨J.i 1, some (2024, 1, 5), J.null, J.null, none, J.i 7⟩] := by
  have d1 : digitsVal ['1', '2'] = 12 := rfl
  have d2 : digitsVal ['5', '0'] = 50 := rfl
  have htot0 : coerceNum (J.s "12.50")
      = some ((digitsVal ['1', '2'] : ℚ) + (digitsVal ['5', '0'] : ℚ) / (10 : ℚ) ^ 2) := rfl
  have htot : coerceNum (J.s "12.50") = some (25 / 2 : ℚ) := by
    rw [htot0, d1, d2]
    norm_num
  have hdate : coerceDate (J.s "2024-01-05") = some (2024, 1, 5) := rfl
  have hbad : coerceNum (J.s "not-a-number") = none := rfl
  refine ⟨normalizeAll_length rows, ?_, ?_⟩
  · show [(⟨J.i 1, coerceDate (J.s "2024-01-05"), J.null, J.null,
        coerceNum (J.s "12.50"), J.i 7⟩ : OrderRecord)] = _
    rw [htot, hdate]
  · show [(⟨J.i 1, coerceDate (J.s "2024-01-05"), J.null, J.null,
        coerceNum (J.s "not-a-number"), J.i 7⟩ : OrderRecord)] = _
    rw [hbad, hdate]

end Dashtsbazar
